import Mathlib

/-!
Shallow embedding of the JK-Tools-hub backend services
(`backend/services/image_converter.py`, `backend/services/image_resizer.py`,
`backend/services/pdf_converter.py`) and proofs about their decision logic.

Conventions of the embedding:
* Python exception flow is made explicit by the `PyResult` type: a function
  body either returns a value (`PyResult.ret`) or raises (`PyResult.raised`);
  `try/except` blocks are modelled by matching on the body's `PyResult`.
* Python `float` division on image dimensions is embedded as exact rational
  arithmetic over `ℚ`; `int(x)` is `pyTrunc` (truncation toward zero).
* Calls into Pillow / reportlab / PyPDF2 and the filesystem are abstracted
  into explicit environment records (`ConvEnv`, `BatchEnv`, `ImgFs`, `PdfFs`)
  whose boolean fields say whether the corresponding library call succeeds;
  the service-level control flow around them is translated line by line.
-/

/-- Python exceptions that appear in the three service modules. -/
inductive PyExc where
  | valueError : String → PyExc
  | fileNotFoundError : String → PyExc
  | pdfConverterError : String → PyExc
  | otherError : String → PyExc
deriving DecidableEq, Repr

/-- Outcome of a Python call: a returned value or a raised exception. -/
inductive PyResult (α : Type) where
  | ret : α → PyResult α
  | raised : PyExc → PyResult α
deriving DecidableEq, Repr

/-- True when the call raised rather than returned. -/
def PyResult.isRaised {α : Type} : PyResult α → Bool
  | .ret _ => false
  | .raised _ => true

/-- Python `str.upper()` on ASCII format tokens. -/
def toUpperStr (s : String) : String := String.mk (s.data.map Char.toUpper)

/-- Python `int(x)` on a rational: truncation toward zero. -/
def pyTrunc (q : ℚ) : Int := if q < 0 then Int.ceil q else Int.floor q

namespace ImageConverter

/-- `ImageConverter.SUPPORTED_FORMATS` (image_converter.py line 39). -/
def SUPPORTED_FORMATS : List String := ["JPEG", "PNG", "WEBP", "BMP", "GIF", "TIFF"]

/-- The quality value stored into `save_kwargs` for JPEG/WEBP:
`max(1, min(100, quality))` (image_converter.py lines 115 and 191). -/
def clampQuality (quality : Int) : Int := max 1 (min 100 quality)

/-- The `quality` entry of `save_kwargs` as a function of the normalized output
format (image_converter.py lines 112-121 and 188-194): present and clamped
for JPEG/WEBP, absent otherwise. -/
def savedQualityKwargs (output_format : String) (quality : Int) : Option Int :=
  if output_format = "JPEG" ∨ output_format = "WEBP" then some (clampQuality quality)
  else none

/-- Environment for `convert_image`: whether the input path exists and whether
the Pillow open/flatten/resize/save pipeline succeeds on it. -/
structure ConvEnv where
  fileExists : String → Bool
  imageOk : String → Bool

/-- Body of the `try` block of `ImageConverter.convert_image`
(image_converter.py lines 76-126): validate the format (raise `ValueError`),
check existence (raise `FileNotFoundError`), then run the Pillow pipeline
(any library failure raises some other exception), returning `True`. -/
def convert_image_body (env : ConvEnv) (input_path : String) (output_format : String) :
    PyResult Bool :=
  let fmt := toUpperStr output_format
  if ¬ (SUPPORTED_FORMATS.contains fmt) then
    .raised (.valueError ("Unsupported format: " ++ fmt))
  else if ¬ env.fileExists input_path then
    .raised (.fileNotFoundError ("Input file not found: " ++ input_path))
  else if env.imageOk input_path then .ret true
  else .raised (.otherError "Error converting image")

/-- `ImageConverter.convert_image` with its `except` clauses
(image_converter.py lines 128-136): `FileNotFoundError` and `ValueError` are
re-raised, any other exception is logged and converted to `return False`. -/
def convert_image (env : ConvEnv) (input_path : String) (output_format : String) :
    PyResult Bool :=
  match convert_image_body env input_path output_format with
  | .raised (.fileNotFoundError m) => .raised (.fileNotFoundError m)
  | .raised (.valueError m) => .raised (.valueError m)
  | .raised _ => .ret false
  | .ret b => .ret b

/-- Body of the `try` block of `ImageConverter.convert_image_bytes`
(image_converter.py lines 161-201): validate the format (raise `ValueError`),
then decode/encode the bytes (failure raises), returning the output bytes
(abstracted to `Unit`). -/
def convert_image_bytes_body (decodeOk : Bool) (output_format : String) :
    PyResult Unit :=
  let fmt := toUpperStr output_format
  if ¬ (SUPPORTED_FORMATS.contains fmt) then
    .raised (.valueError ("Unsupported format: " ++ fmt))
  else if decodeOk then .ret ()
  else .raised (.otherError "Error converting image bytes")

/-- `ImageConverter.convert_image_bytes` with its single `except` clause
(image_converter.py lines 203-205): every exception, including the
`ValueError` of format validation, is caught and converted to `return None`. -/
def convert_image_bytes (decodeOk : Bool) (output_format : String) :
    PyResult (Option Unit) :=
  match convert_image_bytes_body decodeOk output_format with
  | .raised _ => .ret none
  | .ret b => .ret (some b)

end ImageConverter

namespace ImageResizer

/-- `ImageResizer.SUPPORTED_FORMATS` (image_resizer.py line 27). -/
def SUPPORTED_FORMATS : List String := ["JPEG", "PNG", "WEBP", "GIF", "BMP", "TIFF"]

/-- `ImageResizer.DEFAULT_QUALITY` (image_resizer.py line 30). -/
def DEFAULT_QUALITY : Int := 85

/-- `ImageResizer.THUMBNAIL_QUALITY` (image_resizer.py line 31). -/
def THUMBNAIL_QUALITY : Int := 80

/-- `ImageResizer.__init__`: `self.quality = max(1, min(100, quality))`
(image_resizer.py line 41). -/
def initQuality (quality : Int) : Int := max 1 (min 100 quality)

/-- The effective quality used by `ImageResizer.resize` and `convert_format`
at the save call site: `quality or self.quality` (image_resizer.py lines 160
and 239).  Python `or` substitutes `self.quality` when `quality` is falsy,
i.e. `None` or `0`; every other integer is passed through unchanged. -/
def savedQuality (selfQuality : Int) (quality : Option Int) : Int :=
  match quality with
  | none => selfQuality
  | some q => if q = 0 then selfQuality else q

/-- The `quality` entry of `save_kwargs` in `ImageResizer.resize`
(image_resizer.py lines 158-162): present for JPEG/WEBP output, absent
otherwise; no clamping happens at this call site. -/
def saveQualityKwargs (output_format : String) (selfQuality : Int) (quality : Option Int) :
    Option Int :=
  if output_format = "JPEG" ∨ output_format = "WEBP" then
    some (savedQuality selfQuality quality)
  else none

/-- `ImageResizer.calculate_aspect_ratio_dimensions`
(image_resizer.py lines 68-102), with Python float division embedded as
exact division in `ℚ` and `int()` as truncation toward zero. -/
def calculate_aspect_ratio_dimensions (original_size target_size : Nat × Nat) :
    Nat × Nat :=
  let ow := original_size.1
  let oh := original_size.2
  let tw := target_size.1
  let th := target_size.2
  let ar : ℚ := (ow : ℚ) / (oh : ℚ)
  if ow > tw ∨ oh > th then
    if (tw : ℚ) / (th : ℚ) > ar then
      ((pyTrunc ((th : ℚ) * ar)).toNat, th)
    else
      (tw, (pyTrunc ((tw : ℚ) / ar)).toNat)
  else
    original_size

end ImageResizer

/-- Pillow color modes that occur in the flattening branches of the two
services (`RGB` stands for any mode outside the flattened set). -/
inductive PilMode where
  | RGB | RGBA | LA | P | L
deriving DecidableEq, Repr

/-- Description of one RGBA→RGB flattening step: the background color of the
fresh `RGB` canvas and whether `paste` receives the last channel of
`img.split()` (the alpha channel) as its mask. -/
structure FlattenStep where
  background : Nat × Nat × Nat
  useAlphaMask : Bool
deriving DecidableEq, Repr

/-- Flattening step of `ImageConverter.convert_image` and
`convert_image_bytes` for a JPEG target (image_converter.py lines 94-97 and
175-178): modes RGBA/LA/P are pasted onto white, with the alpha channel as
mask when the mode is RGBA or LA (`img.mode in ('RGBA', 'LA')`), no mask for
P; other modes are not flattened. -/
def converterFlatten (mode : PilMode) : Option FlattenStep :=
  if mode = .RGBA ∨ mode = .LA ∨ mode = .P then
    some { background := (255, 255, 255),
           useAlphaMask := mode = .RGBA ∨ mode = .LA }
  else none

/-- Flattening step of `ImageResizer.resize` (image_resizer.py lines
137-141): triggered for modes RGBA/LA/P when the explicit format is JPEG, or
no format is given and the source suffix is `.jpg`; the image is pasted onto
white with the alpha channel as mask only when the mode is RGBA
(`img.mode == 'RGBA'`), no mask for LA or P. -/
def resizerFlatten (mode : PilMode) (format : Option String) (suffixLower : String) :
    Option FlattenStep :=
  if mode = .RGBA ∨ mode = .LA ∨ mode = .P then
    if format = some "JPEG" ∨ (format = none ∧ suffixLower = ".jpg") then
      some { background := (255, 255, 255),
             useAlphaMask := mode = .RGBA }
    else none
  else none

namespace PDFConverter

/-- `PDFConverter.SUPPORTED_IMAGE_FORMATS` (pdf_converter.py line 50). -/
def SUPPORTED_IMAGE_FORMATS : List String :=
  [".jpg", ".jpeg", ".png", ".gif", ".bmp", ".tiff"]

/-- Filesystem/Pillow environment for `images_to_pdf`: existence of each path,
its lowercased extension (`Path(p).suffix.lower()`), and whether the
open/draw pipeline succeeds on it. -/
structure ImgFs where
  pathExists : String → Bool
  suffixLower : String → String
  processOk : String → Bool

/-- The validation loop of `images_to_pdf` (pdf_converter.py lines 97-109):
paths that are missing or whose extension is unsupported are skipped with a
warning; the survivors are kept in input order. -/
def validImages (fs : ImgFs) (image_paths : List String) : List String :=
  image_paths.filter fun p =>
    fs.pathExists p && SUPPORTED_IMAGE_FORMATS.contains (fs.suffixLower p)

/-- The page-drawing loop of `images_to_pdf` (pdf_converter.py lines
118-147): each surviving image is opened, scaled, drawn and given its own
page via `showPage()`, strictly in list order; the first failure raises
`PDFConverterError` and stops the loop before `c.save()` runs. -/
def drawPages (fs : ImgFs) : List String → PyResult (List String)
  | [] => .ret []
  | p :: rest =>
    if fs.processOk p then
      match drawPages fs rest with
      | .ret pages => .ret (p :: pages)
      | .raised e => .raised e
    else .raised (.pdfConverterError ("Failed to process image: " ++ p))

/-- `PDFConverter.images_to_pdf` (pdf_converter.py lines 71-158).  The result
`.ret pages` means `c.save()` wrote the output PDF with exactly one page per
listed image, in that order; `.raised e` means the exception propagated and
`c.save()` never ran, so no output file was produced.  The outer `except`
clauses re-raise `PDFConverterError` and wrap anything else in
`PDFConverterError`, which is the identity on this body. -/
def images_to_pdf (fs : ImgFs) (image_paths : List String) : PyResult (List String) :=
  if image_paths.isEmpty then .raised (.pdfConverterError "No image paths provided")
  else
    let valid := validImages fs image_paths
    if valid.isEmpty then .raised (.pdfConverterError "No valid images found to convert")
    else drawPages fs valid

/-- Filesystem/PyPDF2 environment for `merge_pdfs`: existence of each path,
whether `merger.append` succeeds on it, and the list of pages it holds. -/
structure PdfFs where
  pathExists : String → Bool
  appendOk : String → Bool
  pages : String → List String

/-- The append loop of `merge_pdfs` (pdf_converter.py lines 242-251): missing
paths are skipped with a warning; an append failure raises
`PDFConverterError`; the pages of the survivors accumulate in input order. -/
def mergeLoop (fs : PdfFs) : List String → PyResult (List String)
  | [] => .ret []
  | p :: rest =>
    if ¬ fs.pathExists p then mergeLoop fs rest
    else if fs.appendOk p then
      match mergeLoop fs rest with
      | .ret acc => .ret (fs.pages p ++ acc)
      | .raised e => .raised e
    else .raised (.pdfConverterError ("Failed to process PDF: " ++ p))

/-- `PDFConverter.merge_pdfs` (pdf_converter.py lines 218-263).  The result
`.ret pages` means `merger.write` produced the output file with those pages;
there is no check that any input survived, so an all-missing list still
reaches `merger.write` and yields an empty page list. -/
def merge_pdfs (fs : PdfFs) (pdf_paths : List String) : PyResult (List String) :=
  if pdf_paths.isEmpty then .raised (.pdfConverterError "No PDF paths provided")
  else mergeLoop fs pdf_paths

/-- Python format spec `f"page_{page_num:04d}.pdf"` for a nonnegative page
number: decimal digits left-padded with zeros to width 4. -/
def pad4 (n : Nat) : String :=
  if n < 10 then "000" ++ toString n
  else if n < 100 then "00" ++ toString n
  else if n < 1000 then "0" ++ toString n
  else toString n

/-- The page filter of `split_pdf` (pdf_converter.py line 299):
`[p for p in pages if 1 <= p <= total_pages]`. -/
def keptPages (total_pages : Nat) (pages : List Int) : List Int :=
  pages.filter fun p => 1 ≤ p && p ≤ (total_pages : Int)

/-- `PDFConverter.split_pdf` (pdf_converter.py lines 265-327), abstracting
the input PDF to its page count.  `.ret files` is the returned
`created_files` list: one single-page output file per kept page number,
named `page_NNNN.pdf` with the zero-padded page number.  When `pages` is
`none`, the code substitutes `list(range(1, total_pages + 1))`. -/
def split_pdf (inputExists : Bool) (total_pages : Nat) (pages : Option (List Int)) :
    PyResult (List String) :=
  if ¬ inputExists then .raised (.pdfConverterError "Input PDF not found")
  else
    let ps : List Int := match pages with
      | none => (List.range total_pages).map (fun i : Nat => (i : Int) + 1)
      | some l => l
    let filtered := keptPages total_pages ps
    if filtered.isEmpty then .raised (.pdfConverterError "No valid pages specified")
    else .ret (filtered.map (fun p => "page_" ++ pad4 p.toNat ++ ".pdf"))

end PDFConverter

namespace ImageConverter

/-- Filesystem environment for `batch_convert`: whether the input directory
exists, the files the glob returned, which of them are regular files, and
the `PyResult` of the inner `convert_image` call on each. -/
structure BatchEnv where
  dirExists : Bool
  files : List String
  isFile : String → Bool
  convertResult : String → PyResult Bool

/-- The conversion loop of `batch_convert` (image_converter.py lines
288-308): non-files are skipped; a file whose `convert_image` returns `True`
increments `successful`; one that returns `False` or raises (the inner
`except` catches everything) increments `failed`.  The loop never aborts. -/
def batchLoop (env : BatchEnv) : List String → Nat × Nat → Nat × Nat
  | [], acc => acc
  | f :: rest, (s, fl) =>
    if ¬ env.isFile f then batchLoop env rest (s, fl)
    else
      match env.convertResult f with
      | .ret true => batchLoop env rest (s + 1, fl)
      | .ret false => batchLoop env rest (s, fl + 1)
      | .raised _ => batchLoop env rest (s, fl + 1)

/-- `ImageConverter.batch_convert` (image_converter.py lines 245-315):
unsupported target format raises `ValueError`, missing input directory
raises `FileNotFoundError` (both re-raised by the outer `except`), otherwise
the loop runs to completion and `(successful, failed)` is returned. -/
def batch_convert (env : BatchEnv) (output_format : String) : PyResult (Nat × Nat) :=
  let fmt := toUpperStr output_format
  if ¬ (SUPPORTED_FORMATS.contains fmt) then
    .raised (.valueError ("Unsupported format: " ++ fmt))
  else if ¬ env.dirExists then
    .raised (.fileNotFoundError "Input directory not found")
  else .ret (batchLoop env env.files (0, 0))

end ImageConverter

/-- Concrete environment in which every Pillow call succeeds. -/
def okEnv : ImageConverter.ConvEnv := ⟨fun _ => true, fun _ => true⟩

/-- Concrete filesystem on which no path exists. -/
def noFs : PDFConverter.ImgFs := ⟨fun _ => false, fun _ => "", fun _ => false⟩

/-- Concrete filesystem with two PNG files of which only the first decodes. -/
def abFs : PDFConverter.ImgFs :=
  ⟨fun p => p == "a.png" || p == "b.png", fun _ => ".png", fun p => p == "a.png"⟩

/-- Concrete filesystem on which every image exists and decodes. -/
def goodFs : PDFConverter.ImgFs := ⟨fun _ => true, fun _ => ".png", fun _ => true⟩

/-- Concrete PDF filesystem on which every path is missing. -/
def missPdfFs : PDFConverter.PdfFs := ⟨fun _ => false, fun _ => true, fun _ => ["pg"]⟩

/-- Concrete batch directory with four regular files of which one fails to
convert. -/
def env4 : ImageConverter.BatchEnv :=
  ⟨true, ["a", "b", "c", "d"], fun _ => true,
   fun f => if f == "d" then .ret false else .ret true⟩

/-- Python truncation agrees with the floor on nonnegative rationals. -/
theorem pyTrunc_eq_floor (q : ℚ) (h : 0 ≤ q) : pyTrunc q = Int.floor q :=
  if_neg (not_lt.mpr h)

/-- C2 counterexample: in `ImageResizer.resize`, an explicit `quality=150`
reaches the JPEG `save` call as 150, not 100 — the claim that every
quality-accepting operation clamps into `[1,100]` fails on the resizer. -/
theorem C2_quality_clamp_counterexample :
    ImageResizer.saveQualityKwargs "JPEG"
        (ImageResizer.initQuality ImageResizer.DEFAULT_QUALITY) (some 150) = some 150 ∧
    ImageResizer.saveQualityKwargs "JPEG"
        (ImageResizer.initQuality ImageResizer.DEFAULT_QUALITY) (some 150) ≠ some 100 := by
  decide

/-- C2 (amended): the converter operations (`convert_image` and
`convert_image_bytes` share the clamp `max(1, min(100, quality))`) always
encode with a quality in `[1,100]`, mapping 150 to 100 and -5 to 1, and the
resizer constructor clamps its instance default the same way; but an explicit
quality given to `ImageResizer.resize`/`convert_format` is passed to the
save call unclamped out-of-range values included. -/
theorem C2_quality_clamp_amended (q : Int) (fmt : String)
    (hf : fmt = "JPEG" ∨ fmt = "WEBP") :
    (ImageConverter.savedQualityKwargs fmt q = some (max 1 (min 100 q)) ∧
     1 ≤ ImageConverter.clampQuality q ∧ ImageConverter.clampQuality q ≤ 100 ∧
     ImageConverter.clampQuality 150 = 100 ∧ ImageConverter.clampQuality (-5) = 1) ∧
    (1 ≤ ImageResizer.initQuality q ∧ ImageResizer.initQuality q ≤ 100) ∧
    (ImageResizer.saveQualityKwargs fmt ImageResizer.DEFAULT_QUALITY (some 150) = some 150 ∧
     ImageResizer.saveQualityKwargs fmt ImageResizer.DEFAULT_QUALITY (some (-5)) = some (-5)) := by
  refine ⟨⟨?_, ?_, ?_, by decide, by decide⟩, ⟨?_, ?_⟩, ?_, ?_⟩
  · simp [ImageConverter.savedQualityKwargs, hf, ImageConverter.clampQuality]
  · simp only [ImageConverter.clampQuality]; omega
  · simp only [ImageConverter.clampQuality]; omega
  · simp only [ImageResizer.initQuality]; omega
  · simp only [ImageResizer.initQuality]; omega
  · simp [ImageResizer.saveQualityKwargs, hf, ImageResizer.savedQuality]
  · simp [ImageResizer.saveQualityKwargs, hf, ImageResizer.savedQuality]

/-- Witness for C2 (amended) at `q = 150`, `fmt = "JPEG"`. -/
theorem C2_quality_clamp_amended_witness :
    ImageConverter.savedQualityKwargs "JPEG" 150 = some (max 1 (min 100 150)) ∧
    ImageResizer.saveQualityKwargs "JPEG" ImageResizer.DEFAULT_QUALITY (some 150) = some 150 :=
  ⟨(C2_quality_clamp_amended 150 "JPEG" (Or.inl rfl)).1.1,
   (C2_quality_clamp_amended 150 "JPEG" (Or.inl rfl)).2.2.1⟩

/-- C3 counterexample: `convert_image_bytes` on the unsupported format token
`"XYZ"` returns the failure value `None` — its blanket `except` swallows the
`ValueError` — instead of raising as the claim states for both variants. -/
theorem C3_unsupported_format_counterexample :
    ImageConverter.convert_image_bytes true "XYZ" = .ret none ∧
    (ImageConverter.convert_image_bytes true "XYZ").isRaised = false := by
  decide

/-- C3 (amended): for a target format whose uppercased token is outside the
supported set, the path-based `convert_image` raises `ValueError`, while the
bytes variant `convert_image_bytes` catches that `ValueError` and returns
`None` instead of raising. -/
theorem C3_unsupported_format_amended (env : ImageConverter.ConvEnv)
    (p fmt : String) (dec : Bool)
    (h : toUpperStr fmt ∉ ImageConverter.SUPPORTED_FORMATS) :
    ImageConverter.convert_image env p fmt
      = .raised (.valueError ("Unsupported format: " ++ toUpperStr fmt)) ∧
    ImageConverter.convert_image_bytes dec fmt = .ret none := by
  constructor
  · simp [ImageConverter.convert_image, ImageConverter.convert_image_body, h]
  · simp [ImageConverter.convert_image_bytes, ImageConverter.convert_image_bytes_body, h]

/-- Witness for C3 (amended) at the concrete format token `"XYZ"`. -/
theorem C3_unsupported_format_amended_witness :
    ImageConverter.convert_image okEnv "in.png" "XYZ"
      = .raised (.valueError ("Unsupported format: " ++ toUpperStr "XYZ")) ∧
    ImageConverter.convert_image_bytes true "XYZ" = .ret none :=
  C3_unsupported_format_amended okEnv "in.png" "XYZ" true (by decide)

/-- C4 counterexample: for a source in mode LA with JPEG target, the
converter pastes with the alpha channel as mask while `ImageResizer.resize`
pastes with no mask, so the two flattening steps are not the same
transformation. -/
theorem C4_flatten_counterexample :
    converterFlatten .LA ≠ resizerFlatten .LA (some "JPEG") ".png" ∧
    (converterFlatten .LA).map FlattenStep.useAlphaMask = some true ∧
    (resizerFlatten .LA (some "JPEG") ".png").map FlattenStep.useAlphaMask = some false := by
  decide

/-- C4 (amended): with a JPEG target the two services flatten the same modes
(RGBA, LA, P) onto the same opaque white background, and their steps agree
for RGBA (alpha mask) and P (no mask); but for LA the converter uses the
alpha channel as mask whereas the resizer pastes without a mask. -/
theorem C4_flatten_amended (sfx : String) :
    (converterFlatten .RGBA = resizerFlatten .RGBA (some "JPEG") sfx ∧
     converterFlatten .P = resizerFlatten .P (some "JPEG") sfx) ∧
    converterFlatten .LA = some ⟨(255, 255, 255), true⟩ ∧
    resizerFlatten .LA (some "JPEG") sfx = some ⟨(255, 255, 255), false⟩ := by
  refine ⟨⟨?_, ?_⟩, ?_, ?_⟩ <;> simp [converterFlatten, resizerFlatten]

/-- C10: the falsy-value fallback `quality or self.quality` in
`ImageResizer.resize`/`convert_format` substitutes the instance default for
an explicit quality of 0 (and for `None`), while every nonzero quality —
out-of-range values included — is passed through unchanged; the instance
default is 85 and thumbnails pass the fixed 80. -/
theorem C10_quality_zero_fallback (selfQ v : Int) (hv : v ≠ 0) :
    ImageResizer.savedQuality selfQ (some 0) = selfQ ∧
    ImageResizer.savedQuality selfQ none = selfQ ∧
    ImageResizer.savedQuality selfQ (some v) = v ∧
    ImageResizer.initQuality ImageResizer.DEFAULT_QUALITY = 85 ∧
    ImageResizer.THUMBNAIL_QUALITY = 80 ∧
    ImageResizer.savedQuality selfQ (some ImageResizer.THUMBNAIL_QUALITY)
      = ImageResizer.THUMBNAIL_QUALITY := by
  refine ⟨by simp [ImageResizer.savedQuality], rfl, ?_, by decide, rfl,
    by simp [ImageResizer.savedQuality, ImageResizer.THUMBNAIL_QUALITY]⟩
  simp [ImageResizer.savedQuality, hv]

/-- Witness for C10 at `selfQ = 85`, `v = 150`. -/
theorem C10_quality_zero_fallback_witness :
    ImageResizer.savedQuality 85 (some 0) = 85 ∧
    ImageResizer.savedQuality 85 (some 150) = 150 :=
  ⟨(C10_quality_zero_fallback 85 150 (by decide)).1,
   (C10_quality_zero_fallback 85 150 (by decide)).2.2.1⟩

/-- When every image in the list decodes and draws, the page loop returns one
page per image in list order. -/
theorem drawPages_all_ok (fs : PDFConverter.ImgFs) (l : List String)
    (h : ∀ p ∈ l, fs.processOk p = true) :
    PDFConverter.drawPages fs l = .ret l := by
  induction l with
  | nil => rfl
  | cons a l ih =>
    have ha := h a (List.mem_cons_self a l)
    have hrest := ih fun p hp => h p (List.mem_cons_of_mem a hp)
    simp [PDFConverter.drawPages, ha, hrest]

/-- When some image in the list fails to decode or draw, the page loop raises
`PDFConverterError`. -/
theorem drawPages_fail (fs : PDFConverter.ImgFs) (l : List String)
    (h : ∃ p ∈ l, fs.processOk p = false) :
    ∃ m, PDFConverter.drawPages fs l = .raised (.pdfConverterError m) := by
  induction l with
  | nil => simp at h
  | cons a l ih =>
    by_cases ha : fs.processOk a
    · obtain ⟨p, hp, hpf⟩ := h
      have hpl : p ∈ l := by
        rcases List.mem_cons.mp hp with rfl | hmem
        · exact absurd ha (by simp [hpf])
        · exact hmem
      obtain ⟨m, hm⟩ := ih ⟨p, hpl, hpf⟩
      exact ⟨m, by simp [PDFConverter.drawPages, ha, hm]⟩
    · exact ⟨"Failed to process image: " ++ a, by
        simp [PDFConverter.drawPages, ha]⟩

/-- When at least one image survives validation, `images_to_pdf` runs the
page loop on exactly the surviving images. -/
theorem images_to_pdf_eq_drawPages (fs : PDFConverter.ImgFs) (paths : List String)
    (hv : PDFConverter.validImages fs paths ≠ []) :
    PDFConverter.images_to_pdf fs paths
      = PDFConverter.drawPages fs (PDFConverter.validImages fs paths) := by
  cases paths with
  | nil => exact absurd rfl hv
  | cons a l =>
    have hne : (PDFConverter.validImages fs (a :: l)).isEmpty = false := by
      cases hq : PDFConverter.validImages fs (a :: l) with
      | nil => exact absurd hq hv
      | cons b bs => rfl
    simp [PDFConverter.images_to_pdf, hne]

/-- C5: whenever zero paths survive validation — each input missing on disk
or carrying an unsupported extension, the empty input list included —
`images_to_pdf` raises `PDFConverterError`, and since only a successful run
reaches `c.save()`, no output PDF (in particular no zero-page PDF) is ever
written. -/
theorem C5_images_to_pdf_no_survivors (fs : PDFConverter.ImgFs) (paths : List String)
    (h : PDFConverter.validImages fs paths = []) :
    ∃ m, PDFConverter.images_to_pdf fs paths = .raised (.pdfConverterError m) := by
  cases paths with
  | nil => exact ⟨"No image paths provided", rfl⟩
  | cons a l =>
    refine ⟨"No valid images found to convert", ?_⟩
    simp [PDFConverter.images_to_pdf, h]

/-- Witness for C5: the empty input list on a filesystem with no files. -/
theorem C5_images_to_pdf_no_survivors_witness :
    ∃ m, PDFConverter.images_to_pdf noFs [] = .raised (.pdfConverterError m) :=
  C5_images_to_pdf_no_survivors noFs [] rfl

/-- C6: the surviving images are processed strictly sequentially in input
order — a successful build returns one page per surviving image, in the
order of the input list — and if any single surviving image fails to decode
or draw, the whole build raises `PDFConverterError` before `c.save()` runs,
so no partial output PDF is produced. -/
theorem C6_images_to_pdf_sequential (fs : PDFConverter.ImgFs) (paths : List String) :
    (PDFConverter.validImages fs paths ≠ [] →
      (∀ p ∈ PDFConverter.validImages fs paths, fs.processOk p = true) →
      PDFConverter.images_to_pdf fs paths = .ret (PDFConverter.validImages fs paths)) ∧
    ((∃ p ∈ PDFConverter.validImages fs paths, fs.processOk p = false) →
      ∃ m, PDFConverter.images_to_pdf fs paths = .raised (.pdfConverterError m)) := by
  constructor
  · intro hv hok
    rw [images_to_pdf_eq_drawPages fs paths hv]
    exact drawPages_all_ok fs _ hok
  · intro hfail
    obtain ⟨p, hp, hpf⟩ := hfail
    rw [images_to_pdf_eq_drawPages fs paths (List.ne_nil_of_mem hp)]
    exact drawPages_fail fs _ ⟨p, hp, hpf⟩

/-- Witness for C6: a two-file input where both survive and the second fails
to decode aborts the build; with every file decoding the build returns one
page per input file in order. -/
theorem C6_images_to_pdf_sequential_witness :
    (∃ m, PDFConverter.images_to_pdf abFs ["a.png", "b.png"]
            = .raised (.pdfConverterError m)) ∧
    PDFConverter.images_to_pdf goodFs ["a.png", "b.png"]
      = .ret (PDFConverter.validImages goodFs ["a.png", "b.png"]) :=
  ⟨(C6_images_to_pdf_sequential abFs ["a.png", "b.png"]).2
      ⟨"b.png", by decide, by decide⟩,
   (C6_images_to_pdf_sequential goodFs ["a.png", "b.png"]).1
      (by decide) (by decide)⟩

/-- With no explicit page list, the substituted list `range(1, n+1)` survives
the in-range filter unchanged. -/
theorem keptPages_range (total : Nat) :
    PDFConverter.keptPages total ((List.range total).map fun i : Nat => (i : Int) + 1)
      = (List.range total).map fun i : Nat => (i : Int) + 1 := by
  unfold PDFConverter.keptPages
  rw [List.filter_eq_self]
  intro p hp
  obtain ⟨i, hi, rfl⟩ := List.mem_map.mp hp
  have hlt := List.mem_range.mp hi
  simp only [Bool.and_eq_true, decide_eq_true_eq]
  omega

/-- C7: in `split_pdf`, page numbers outside `[1, n]` are silently dropped by
the filter; an empty filtered list raises `PDFConverterError`; with no page
list every page of the document is split individually; and each kept page
yields exactly one output file named by its zero-padded page number, in list
order. -/
theorem C7_split_pdf (total : Nat) (l : List Int) :
    (PDFConverter.keptPages total l = [] →
      ∃ m, PDFConverter.split_pdf true total (some l)
             = .raised (.pdfConverterError m)) ∧
    (PDFConverter.keptPages total l ≠ [] →
      PDFConverter.split_pdf true total (some l)
        = .ret ((PDFConverter.keptPages total l).map
            (fun p => "page_" ++ PDFConverter.pad4 p.toNat ++ ".pdf"))) ∧
    (0 < total →
      PDFConverter.split_pdf true total none
        = .ret ((List.range total).map
            (fun i => "page_" ++ PDFConverter.pad4 (i + 1) ++ ".pdf"))) := by
  refine ⟨?_, ?_, ?_⟩
  · intro h
    exact ⟨"No valid pages specified", by simp [PDFConverter.split_pdf, h]⟩
  · intro h
    have hne : (PDFConverter.keptPages total l).isEmpty = false := by
      cases hq : PDFConverter.keptPages total l with
      | nil => exact absurd hq h
      | cons b bs => rfl
    simp [PDFConverter.split_pdf, hne]
  · intro h
    have hne : (PDFConverter.keptPages total
        ((List.range total).map fun i : Nat => (i : Int) + 1)).isEmpty = false := by
      rw [keptPages_range]
      cases htot : total with
      | zero => omega
      | succ n => simp [List.range_succ]
    unfold PDFConverter.split_pdf
    rw [if_neg (by simp)]
    simp only []
    rw [if_neg (by simp [hne]), keptPages_range, List.map_map]
    congr 1

/-- Witness for C7: a 5-page document with `pages=[2,4,99]` yields exactly
two output files, page 99 being dropped as out-of-range. -/
theorem C7_split_pdf_witness :
    PDFConverter.keptPages 5 [2, 4, 99] ≠ [] ∧
    PDFConverter.split_pdf true 5 (some [2, 4, 99])
      = .ret ["page_0002.pdf", "page_0004.pdf"] ∧
    (["page_0002.pdf", "page_0004.pdf"] : List String).length = 2 := by
  refine ⟨by decide, ?_, rfl⟩
  have h := (C7_split_pdf 5 [2, 4, 99]).2.1 (by decide)
  rw [h]
  rfl

/-- The batch loop runs to completion and counts, among the regular files,
the ones `convert_image` converted and the ones it failed on. -/
theorem batchLoop_counts (env : ImageConverter.BatchEnv) (l : List String) (s f : Nat) :
    ImageConverter.batchLoop env l (s, f)
      = (s + (l.filter env.isFile).countP
              (fun x => decide (env.convertResult x = .ret true)),
         f + (l.filter env.isFile).countP
              (fun x => !(decide (env.convertResult x = .ret true)))) := by
  induction l generalizing s f with
  | nil => simp [ImageConverter.batchLoop]
  | cons a l ih =>
    by_cases ha : env.isFile a
    · cases hr : env.convertResult a with
      | ret b =>
        cases b with
        | true =>
          simp only [ImageConverter.batchLoop, ha, if_neg, Bool.not_true,
            Bool.false_eq_true, ite_false, hr, ih, List.filter_cons_of_pos,
            List.countP_cons, decide_eq_true_eq]
          simp [hr]
          omega
        | false =>
          simp only [ImageConverter.batchLoop, ha, hr, ih, List.filter_cons_of_pos,
            List.countP_cons]
          simp [hr]
          omega
      | raised e =>
        simp only [ImageConverter.batchLoop, ha, hr, ih, List.filter_cons_of_pos,
          List.countP_cons]
        simp [hr]
        omega
    · simp [ImageConverter.batchLoop, ha, ih, List.filter_cons_of_neg]

/-- C8: `batch_convert` processes each regular file matched by the glob
independently, never aborts on a per-file failure — the loop always runs to
completion and returns the pair `(successful, failed)` — while an
unsupported target format or a missing input directory raises and aborts the
whole batch. -/
theorem C8_batch_convert (env : ImageConverter.BatchEnv) (fmt : String) :
    (toUpperStr fmt ∈ ImageConverter.SUPPORTED_FORMATS → env.dirExists = true →
      ImageConverter.batch_convert env fmt
        = .ret ((env.files.filter env.isFile).countP
                  (fun x => decide (env.convertResult x = .ret true)),
                (env.files.filter env.isFile).countP
                  (fun x => !(decide (env.convertResult x = .ret true))))) ∧
    (toUpperStr fmt ∉ ImageConverter.SUPPORTED_FORMATS →
      ∃ m, ImageConverter.batch_convert env fmt = .raised (.valueError m)) ∧
    (env.dirExists = false → toUpperStr fmt ∈ ImageConverter.SUPPORTED_FORMATS →
      ∃ m, ImageConverter.batch_convert env fmt = .raised (.fileNotFoundError m)) := by
  refine ⟨?_, ?_, ?_⟩
  · intro hmem hdir
    simp only [ImageConverter.batch_convert]
    rw [if_neg (by simp [hmem]), if_neg (by simp [hdir]), batchLoop_counts]
    simp
  · intro hnot
    exact ⟨"Unsupported format: " ++ toUpperStr fmt,
      by simp [ImageConverter.batch_convert, hnot]⟩
  · intro hdir hmem
    exact ⟨"Input directory not found",
      by simp [ImageConverter.batch_convert, hmem, hdir]⟩

/-- Witness for C8: a directory of four files of which three convert and one
fails returns the pair (3, 1). -/
theorem C8_batch_convert_witness :
    ImageConverter.batch_convert env4 "png" = .ret (3, 1) := by
  have h := (C8_batch_convert env4 "png").1 (by decide) rfl
  rw [h]
  rfl

/-- The merge loop skips missing paths, appends the pages of surviving paths
in input order, and succeeds whenever every surviving path appends cleanly. -/
theorem mergeLoop_append_all (fs : PDFConverter.PdfFs) (l : List String)
    (h : ∀ p ∈ l, fs.pathExists p = true → fs.appendOk p = true) :
    PDFConverter.mergeLoop fs l
      = .ret ((l.filter fs.pathExists).map fs.pages).flatten := by
  induction l with
  | nil => rfl
  | cons a l ih =>
    have ihh := ih fun p hp hpe => h p (List.mem_cons_of_mem a hp) hpe
    by_cases ha : fs.pathExists a
    · have hok := h a (List.mem_cons_self a l) ha
      simp [PDFConverter.mergeLoop, ha, hok, ihh]
    · simp [PDFConverter.mergeLoop, ha, ihh]

/-- C9: for a non-empty path list whose surviving members all append
cleanly, `merge_pdfs` skips each missing path and writes an output whose
pages are those of the surviving PDFs in the caller-specified input order;
in particular when zero paths survive it still writes an (empty) output
rather than raising a no-valid-input error. -/
theorem C9_merge_pdfs (fs : PDFConverter.PdfFs) (paths : List String)
    (hne : paths ≠ [])
    (h : ∀ p ∈ paths, fs.pathExists p = true → fs.appendOk p = true) :
    PDFConverter.merge_pdfs fs paths
      = .ret ((paths.filter fs.pathExists).map fs.pages).flatten ∧
    ((∀ p ∈ paths, fs.pathExists p = false) →
      PDFConverter.merge_pdfs fs paths = .ret []) := by
  have hmain : PDFConverter.merge_pdfs fs paths
      = .ret ((paths.filter fs.pathExists).map fs.pages).flatten := by
    cases paths with
    | nil => exact absurd rfl hne
    | cons a l => simpa [PDFConverter.merge_pdfs] using mergeLoop_append_all fs (a :: l) h
  refine ⟨hmain, fun hall => ?_⟩
  rw [hmain]
  have hfil : paths.filter fs.pathExists = [] :=
    List.filter_eq_nil_iff.mpr fun p hp => by simp [hall p hp]
  simp [hfil]

/-- Witness for C9: a two-element list of missing paths still merges and
writes an output with no pages. -/
theorem C9_merge_pdfs_witness :
    PDFConverter.merge_pdfs missPdfFs ["x.pdf", "y.pdf"] = .ret [] := by
  have h := (C9_merge_pdfs missPdfFs ["x.pdf", "y.pdf"] (by decide)
      (fun p hp hpe => by simp [missPdfFs] at hpe)).2
  exact h fun p hp => rfl

/-- C1: for positive original size `(ow, oh)` and positive target box
`(tw, th)`, `calculate_aspect_ratio_dimensions` returns the original size
unchanged when `ow ≤ tw` and `oh ≤ th`; otherwise both output components are
the truncation of the corresponding original dimension scaled by the minimum
of `tw/ow` and `th/oh` (the binding dimension comes out exact), and the
code's tie-break test `tw/th > ow/oh` holds exactly when the height scale
`th/oh` is strictly the smaller one, i.e. height is the binding constraint. -/
theorem C1_aspect_min_scale (ow oh tw th : Nat)
    (how : 0 < ow) (hoh : 0 < oh) (htw : 0 < tw) (hth : 0 < th) :
    (ow ≤ tw ∧ oh ≤ th →
      ImageResizer.calculate_aspect_ratio_dimensions (ow, oh) (tw, th) = (ow, oh)) ∧
    (¬ (ow ≤ tw ∧ oh ≤ th) →
      ImageResizer.calculate_aspect_ratio_dimensions (ow, oh) (tw, th)
        = ((Int.floor (min ((tw : ℚ) / ow) ((th : ℚ) / oh) * ow)).toNat,
           (Int.floor (min ((tw : ℚ) / ow) ((th : ℚ) / oh) * oh)).toNat) ∧
      ((ow : ℚ) / oh < (tw : ℚ) / th ↔ (th : ℚ) / oh < (tw : ℚ) / ow)) := by
  have h0ow : (0 : ℚ) < ow := by exact_mod_cast how
  have h0oh : (0 : ℚ) < oh := by exact_mod_cast hoh
  have h0tw : (0 : ℚ) < tw := by exact_mod_cast htw
  have h0th : (0 : ℚ) < th := by exact_mod_cast hth
  constructor
  · rintro ⟨h1, h2⟩
    simp only [ImageResizer.calculate_aspect_ratio_dimensions]
    rw [if_neg (by omega)]
  · intro hn
    have hguard : ow > tw ∨ oh > th := by omega
    by_cases hcmp : (ow : ℚ) / oh < (tw : ℚ) / th
    · -- height is the binding constraint
      have hprod : (ow : ℚ) * th < (tw : ℚ) * oh := (div_lt_div_iff₀ h0oh h0th).mp hcmp
      have hscale : (th : ℚ) / oh < (tw : ℚ) / ow :=
        (div_lt_div_iff₀ h0oh h0ow).mpr (by linarith)
      have hmin : min ((tw : ℚ) / ow) ((th : ℚ) / oh) = (th : ℚ) / oh :=
        min_eq_right (le_of_lt hscale)
      refine ⟨?_, ⟨fun _ => hscale, fun _ => hcmp⟩⟩
      simp only [ImageResizer.calculate_aspect_ratio_dimensions]
      rw [if_pos hguard, if_pos hcmp, hmin]
      have e1 : (th : ℚ) * ((ow : ℚ) / oh) = (th : ℚ) / oh * ow := by ring
      have e2 : (th : ℚ) / oh * oh = (th : ℚ) :=
        div_mul_cancel₀ _ (ne_of_gt h0oh)
      rw [pyTrunc_eq_floor _ (by positivity), e1, e2, Int.floor_natCast]
      simp
    · -- width is the binding constraint
      have hge : (tw : ℚ) / th ≤ (ow : ℚ) / oh := not_lt.mp hcmp
      have hprod : (tw : ℚ) * oh ≤ (ow : ℚ) * th := (div_le_div_iff₀ h0th h0oh).mp hge
      have hscale : (tw : ℚ) / ow ≤ (th : ℚ) / oh :=
        (div_le_div_iff₀ h0ow h0oh).mpr (by linarith)
      have hmin : min ((tw : ℚ) / ow) ((th : ℚ) / oh) = (tw : ℚ) / ow :=
        min_eq_left hscale
      refine ⟨?_, ⟨fun hc => absurd hc hcmp, fun hc => absurd hc (not_lt.mpr hscale)⟩⟩
      simp only [ImageResizer.calculate_aspect_ratio_dimensions]
      rw [if_pos hguard, if_neg hcmp, hmin]
      have e1 : (tw : ℚ) / ((ow : ℚ) / oh) = (tw : ℚ) / ow * oh := by
        rw [div_div_eq_mul_div, div_mul_eq_mul_div]
      have e2 : (tw : ℚ) / ow * ow = (tw : ℚ) :=
        div_mul_cancel₀ _ (ne_of_gt h0ow)
      rw [pyTrunc_eq_floor _ (by positivity), e1, e2, Int.floor_natCast]
      simp

/-- Witness for C1: the original (800, 600) with target box (400, 400) lies
outside the box, width is the binding constraint, and the output is exactly
(400, 300). -/
theorem C1_aspect_min_scale_witness :
    ¬ ((800 : Nat) ≤ 400 ∧ (600 : Nat) ≤ 400) ∧
    ImageResizer.calculate_aspect_ratio_dimensions (800, 600) (400, 400) = (400, 300) := by
  refine ⟨by omega, ?_⟩
  have h := (C1_aspect_min_scale 800 600 400 400
      (by norm_num) (by norm_num) (by norm_num) (by norm_num)).2 (by omega)
  rw [h.1]
  norm_num [min_def]
  constructor <;> rfl
